import Mathlib

/-!
Verification of `src/ape_geth/provider.py` (the ape geth provider plugin).

The Python module is shallowly embedded below.  Pure computations (string
classification, genesis construction, snapshot decoding) become Lean
functions; stateful code (connection lifecycle, RPC traffic) becomes explicit
state passing, with the list of issued RPC requests returned alongside the
result; Python exceptions become `Except` values.  External collaborators
(web3, the node itself, the ijson incremental parser, the evm_trace
converters) are modelled at their interfaces, as function-valued parameters
or abstract constructors, exactly as the module consumes them.
-/

namespace ApeGeth

/-! ## String helpers

Python `s.lower()` and `needle in s` (substring membership), used by
`BaseGethProvider._complete_connect`, `get_call_tree` and `_make_request`.
-/

/-- Python `str.lower()` restricted to the character-wise lowering used on
ASCII client-version strings. -/
def lowerStr (s : String) : String :=
  String.mk (s.toList.map Char.toLower)

/-- `charsLeading needle hay` holds when `needle` occurs at the start of
`hay` (as lists of characters). -/
def charsLeading : List Char → List Char → Bool
  | [], _ => true
  | _ :: _, [] => false
  | a :: as, b :: bs => a == b && charsLeading as bs

/-- `charsSub needle hay`: `needle` occurs contiguously somewhere in `hay`. -/
def charsSub (needle : List Char) : List Char → Bool
  | [] => charsLeading needle []
  | b :: bs => charsLeading needle (b :: bs) || charsSub needle bs

/-- Python `needle in hay` on strings. -/
def strContains (hay needle : String) : Bool :=
  charsSub needle.toList hay.toList

/-! ## Client classification (`BaseGethProvider._complete_connect`, lines 268-281)

Class attributes give the defaults `block_page_size = 5000`,
`concurrency = 16` (lines 226-227).  `_complete_connect` matches the
lower-cased client version against "geth", then "erigon", then "nethermind";
the first two tunables are only reassigned in the erigon and nethermind
branches; an unrecognized client produces a warning log, never an error.
-/

def default_concurrency : Nat := 16

def default_block_page_size : Nat := 5000

/-- Outcome of the classification step: the tunables afterwards and whether
the unknown-client warning was logged. -/
structure ProfileResult where
  concurrency : Nat
  block_page_size : Nat
  warning : Bool
deriving DecidableEq

/-- Lines 269-281 of `_complete_connect`: branch on the lower-cased client
version; `concurrency` and `block_page_size` are the values of
`self.concurrency` / `self.block_page_size` on entry. -/
def complete_connect_classify (client_version : String)
    (concurrency block_page_size : Nat) : ProfileResult :=
  if strContains (lowerStr client_version) "geth" then
    ⟨concurrency, block_page_size, false⟩
  else if strContains (lowerStr client_version) "erigon" then
    ⟨8, 40000, false⟩
  else if strContains (lowerStr client_version) "nethermind" then
    ⟨32, 50000, false⟩
  else
    ⟨concurrency, block_page_size, true⟩

/-! ## RPC errors and the `_make_request` wrapper (lines 366-375)

`ape.exceptions.APINotImplementedError` is a subclass of `ProviderError`, so
the `except ProviderError` clause in `_make_request` catches both; a plain
`ValueError` and any other exception pass through the wrapper untouched.
-/

inductive RpcErr
  | providerError (msg : String)
  | apiNotImplementedError (msg : String)
  | valueError (msg : String)
  | otherErr (msg : String)
deriving DecidableEq

instance {ε α : Type} [DecidableEq ε] [DecidableEq α] : DecidableEq (Except ε α) := fun x y =>
  match x, y with
  | .ok a, .ok b =>
    if h : a = b then isTrue (by rw [h])
    else isFalse (fun hh => h (Except.ok.inj hh))
  | .error a, .error b =>
    if h : a = b then isTrue (by rw [h])
    else isFalse (fun hh => h (Except.error.inj hh))
  | .ok _, .error _ => isFalse (fun hh => Except.noConfusion hh)
  | .error _, .ok _ => isFalse (fun hh => Except.noConfusion hh)

/-- The message `_make_request` attaches when it classifies an RPC error as
an unsupported method (line 372). -/
def not_implemented_msg (endpoint : String) : String :=
  "RPC method '" ++ endpoint ++ "' is not implemented by this node instance."

/-- `BaseGethProvider._make_request`: forward the underlying request; if it
raised a `ProviderError` (or its subclass `APINotImplementedError`) whose
message contains `"does not exist/is not available"`, re-raise it as
`APINotImplementedError`; otherwise re-raise the original error. -/
def make_request (endpoint : String) (raw : Except RpcErr α) : Except RpcErr α :=
  match raw with
  | .error (.providerError msg) =>
    if strContains msg "does not exist/is not available" then
      .error (.apiNotImplementedError (not_implemented_msg endpoint))
    else
      .error (.providerError msg)
  | .error (.apiNotImplementedError msg) =>
    if strContains msg "does not exist/is not available" then
      .error (.apiNotImplementedError (not_implemented_msg endpoint))
    else
      .error (.apiNotImplementedError msg)
  | r => r

/-! ## Call-tree acquisition (lines 328-355, 551-552)

The node is modelled at the RPC interface `get_call_tree` consumes: the
reply to `trace_transaction` (a parity-style trace list) and the reply to
`debug_traceTransaction` with the `callTracer` directive (a structured call
dict).  The payloads themselves are opaque to the provider code - it hands
them to the external `evm_trace` converters - so they are abstract data
(`List Nat` items / a `Nat` dict), and the converters are modelled as the
constructors of `EvmCallSource`, which records which endpoint's data the
resulting tree was built from.  Each acquisition function also returns the
list of RPC endpoints it requested, in order.
-/

/-- The node's responses to the two trace endpoints, per transaction hash. -/
structure RpcNode where
  trace_transaction : String → Except RpcErr (List Nat)
  call_tracer : String → Except RpcErr Nat

inductive EvmCallSource
  | parityTrace (items : List Nat)
  | gethCallTrace (data : Nat)
deriving DecidableEq

structure CallTreeNode where
  source : EvmCallSource
  txn_hash : Option String
deriving DecidableEq

/-- External `evm_trace.get_calltree_from_parity_trace`, abstract. -/
def get_calltree_from_parity_trace (items : List Nat) : EvmCallSource :=
  .parityTrace items

/-- External `evm_trace.get_calltree_from_geth_call_trace`, abstract. -/
def get_calltree_from_geth_call_trace (data : Nat) : EvmCallSource :=
  .gethCallTrace data

/-- `Web3Provider._create_call_tree_node`, abstract: tags the converted call
with the transaction hash when one is passed. -/
def create_call_tree_node (call : EvmCallSource) (txn_hash : Option String) :
    CallTreeNode :=
  ⟨call, txn_hash⟩

/-- `BaseGethProvider._get_parity_call_tree` (lines 343-350): request
`trace_transaction` through the `_make_request` wrapper; a falsy result (an
empty trace list) raises `ProviderError`. -/
def get_parity_call_tree (node : RpcNode) (txn_hash : String) :
    Except RpcErr CallTreeNode × List String :=
  match make_request "trace_transaction" (node.trace_transaction txn_hash) with
  | .error e => (.error e, ["trace_transaction"])
  | .ok items =>
    if items = [] then
      (.error (.providerError ("Failed to get trace for '" ++ txn_hash ++ "'.")),
       ["trace_transaction"])
    else
      (.ok (create_call_tree_node (get_calltree_from_parity_trace items) (some txn_hash)),
       ["trace_transaction"])

/-- `BaseGethProvider._get_geth_call_tree` (lines 352-355), with the
`debug_traceTransaction`+callTracer request of
`_get_transaction_trace_using_call_tracer` (lines 328-331) inlined. -/
def get_geth_call_tree (node : RpcNode) (txn_hash : String) :
    Except RpcErr CallTreeNode × List String :=
  match make_request "debug_traceTransaction" (node.call_tracer txn_hash) with
  | .error e => (.error e, ["debug_traceTransaction"])
  | .ok data =>
    (.ok (create_call_tree_node (get_calltree_from_geth_call_trace data) (some txn_hash)),
     ["debug_traceTransaction"])

/-- The exception classes caught by the fallback in `get_call_tree`
(line 340): `ValueError`, `APINotImplementedError`, `ProviderError`. -/
def caught_by_fallback : RpcErr → Bool
  | .valueError _ => true
  | .apiNotImplementedError _ => true
  | .providerError _ => true
  | .otherErr _ => false

/-- `BaseGethProvider.get_call_tree` (lines 333-341): an erigon client goes
straight to the parity call tree; otherwise try the parity call tree and on
a caught exception fall back to the geth call tracer. -/
def get_call_tree (node : RpcNode) (client_version : String) (txn_hash : String) :
    Except RpcErr CallTreeNode × List String :=
  if strContains (lowerStr client_version) "erigon" then
    get_parity_call_tree node txn_hash
  else
    match get_parity_call_tree node txn_hash with
    | (.ok tree, reqs) => (.ok tree, reqs)
    | (.error e, reqs) =>
      if caught_by_fallback e then
        let r := get_geth_call_tree node txn_hash
        (r.1, reqs ++ r.2)
      else
        (.error e, reqs)

/-- `GethDev.get_call_tree` (lines 551-552): always the geth call tracer. -/
def gethDev_get_call_tree (node : RpcNode) (txn_hash : String) :
    Except RpcErr CallTreeNode × List String :=
  get_geth_call_tree node txn_hash

/-! ## Connection lifecycle (`_set_web3`, `_complete_connect`, `disconnect`,
`Geth.connect`; lines 264-281, 317-319, 560-565)

The mutable per-instance state the claims mention: the cached client
version, the two tunables, and whether a web3 handle is attached.  The
caching of `self.client_version` on first access (a `Web3Provider`
property) is folded into `complete_connect`, which is where it is first
read; `node_version` stands for the version string the connected node
reports. -/

structure ProviderState where
  client_version : Option String
  concurrency : Nat
  block_page_size : Nat
  connected : Bool
deriving DecidableEq

/-- A freshly constructed provider: the class attributes of
`BaseGethProvider` (lines 223-227). -/
def initialState : ProviderState :=
  ⟨none, default_concurrency, default_block_page_size, false⟩

/-- `BaseGethProvider._set_web3` (lines 264-266): clear the cached client
version and attach a fresh web3 handle. -/
def set_web3 (st : ProviderState) : ProviderState :=
  { st with client_version := none, connected := true }

/-- `BaseGethProvider._complete_connect` (lines 268-281): read (and cache)
the node's version string, then apply the classification branch. -/
def complete_connect (st : ProviderState) (node_version : String) : ProviderState :=
  let r := complete_connect_classify node_version st.concurrency st.block_page_size
  { st with
    client_version := some node_version
    concurrency := r.concurrency
    block_page_size := r.block_page_size }

/-- `BaseGethProvider.disconnect` (lines 317-319): drop the web3 handle and
the cached client version.  Nothing else is reset. -/
def provider_disconnect (st : ProviderState) : ProviderState :=
  { st with connected := false, client_version := none }

/-- `Geth.connect` (lines 560-565) on the success path: `_set_web3` then
`_complete_connect` against the node now reachable at the URI. -/
def geth_connect (st : ProviderState) (node_version : String) : ProviderState :=
  complete_connect (set_web3 st) node_version

/-! ## Genesis construction (`GethDevProcess.__init__`, lines 96-122)

`sealer` is the 40-hex-character account address returned by the external
`ensure_account_exists`, already stripped of its `0x` prefix (line 96).
Line 97 sets it as `miner_etherbase`; line 103 builds the `extraData`
f-string `f"0x{'0' * 64}{sealer}{'0' * 130}"`. -/

/-- `'0' * n` of the f-string. -/
def zeroPad (n : Nat) : String :=
  String.mk (List.replicate n '0')

/-- The parts of the genesis setup the claims are about. -/
structure GenesisSetup where
  extraData : String
  miner_etherbase : String
  chainId : Nat
deriving DecidableEq

/-- Lines 96-122: the `extraData` layout and the etherbase assignment. -/
def make_genesis (sealer : String) (chain_id : Nat) : GenesisSetup :=
  ⟨"0x" ++ zeroPad 64 ++ sealer ++ zeroPad 130, sealer, chain_id⟩

/-! ## Dev-node start safety (`GethDevProcess.from_uri`, lines 137-154)

`from_uri` parses the URI and refuses any host other than `"localhost"` or
`"127.0.0.1"` with a `ConnectionError` before `cls(...)` runs; only the
constructor (lines 60-135) touches the filesystem (`data_dir.mkdir`, the
stale-dir wipe, `initialize_chain`) - and it, in turn, first checks that the
geth executable exists.  The host is `Option`-valued because `yarl` reports
no host for some URIs; Python `not in` then also rejects `None`.  The
side effects of the constructor are returned as an action list, so the
refusal path provably performs none of them. -/

inductive DevAction
  | mkdirDataDir
  | cleanDataDir
  | initChain
deriving DecidableEq

/-- Python `repr` of the host as interpolated into the error message. -/
def hostRepr : Option String → String
  | some h => h
  | none => "None"

/-- `GethDevProcess.__init__` effects (lines 71-129): fail fast when geth is
not installed, otherwise create the data dir, wipe any stale one and write
the genesis. -/
def gethDevProcess_init (geth_installed : Bool) : Except String (List DevAction) :=
  if geth_installed then
    .ok [DevAction.mkdirDataDir, DevAction.cleanDataDir, DevAction.initChain]
  else
    .error "geth is not installed and there is no local provider running."

/-- `GethDevProcess.from_uri` (lines 137-154): the loopback-only guard, then
the constructor. -/
def from_uri (host : Option String) (geth_installed : Bool) :
    Except String (List DevAction) :=
  if host = some "localhost" ∨ host = some "127.0.0.1" then
    gethDevProcess_init geth_installed
  else
    .error ("Unable to start Geth on non-local host " ++ hostRepr host ++ ".")

/-! ## Snapshot and revert (`GethDev.snapshot` / `GethDev.revert`,
lines 444-466)

Snapshot ids are block numbers; Python lets `revert` receive them as an
`int`, as `bytes`, or as a hex `str`.  The hex codecs below model
`eth_utils.to_hex`, `bytes.hex`, `eth_utils.add_0x_prefix` and
`int(s, 16)` on the non-negative values that occur here.  `revert` returns
the list of RPC requests it issues (method, parameter), or the `ValueError`
Python's `int(s, 16)` raises on an unparsable hex string. -/

/-- `eth_utils.to_hex` on a non-negative int: `0x` plus lower-case hex
digits, `"0x0"` for zero. -/
def to_hex (n : Nat) : String :=
  "0x" ++ String.mk (Nat.toDigits 16 n)

/-- Two lower-case hex digits of one byte, as in Python `bytes.hex()`. -/
def byteHexChars (b : Nat) : List Char :=
  [Nat.digitChar (b / 16 % 16), Nat.digitChar (b % 16)]

/-- Python `bytes.hex()`: each byte as two lower-case hex digits. -/
def bytesHex (bs : List Nat) : String :=
  String.mk (bs.foldr (fun b acc => byteHexChars b ++ acc) [])

/-- `eth_utils.add_0x_prefix`: prepend `0x` unless already prefixed. -/
def add_0x_prefix (s : String) : String :=
  if charsLeading ['0', 'x'] s.toList ∨ charsLeading ['0', 'X'] s.toList then s
  else "0x" ++ s

/-- One hex digit's value, both cases, as accepted by `int(s, 16)`. -/
def hexDigitVal (c : Char) : Option Nat :=
  if '0' ≤ c ∧ c ≤ '9' then some (c.toNat - '0'.toNat)
  else if 'a' ≤ c ∧ c ≤ 'f' then some (c.toNat - 'a'.toNat + 10)
  else if 'A' ≤ c ∧ c ≤ 'F' then some (c.toNat - 'A'.toNat + 10)
  else none

def parseHexCore : List Char → Nat → Option Nat
  | [], acc => some acc
  | c :: cs, acc =>
    match hexDigitVal c with
    | some d => parseHexCore cs (acc * 16 + d)
    | none => none

/-- Python `int(s, 16)` on a non-negative literal: an optional `0x`/`0X`
prefix, then at least one hex digit; anything else raises `ValueError`
(here: `none`). -/
def int_of_hex (s : String) : Option Nat :=
  let cs := s.toList
  let ds :=
    if charsLeading ['0', 'x'] cs ∨ charsLeading ['0', 'X'] cs then cs.drop 2 else cs
  match ds with
  | [] => none
  | _ => parseHexCore ds 0

/-- The chain state `GethDev` observes: `get_block("latest").number`, which
web3 types as optional. -/
structure DevState where
  latest_number : Option Nat
deriving DecidableEq

/-- `GethDev.snapshot` (lines 444-445): `self.get_block("latest").number or 0`. -/
def snapshot (st : DevState) : Nat :=
  match st.latest_number with
  | some n => n
  | none => 0

/-- A snapshot id as `revert` may receive it. -/
inductive SnapId
  | int (n : Nat)
  | bytes (bs : List Nat)
  | str (s : String)

/-- Lines 448-456 of `GethDev.revert`: decode the snapshot id into
`(block_number_int, block_number_hex_str)`. -/
def decode_snapshot_id : SnapId → Except String (Nat × String)
  | .int n => .ok (n, to_hex n)
  | .bytes bs =>
    let h := add_0x_prefix (bytesHex bs)
    match int_of_hex h with
    | some n => .ok (n, h)
    | none => .error ("invalid literal for int() with base 16: " ++ h)
  | .str s =>
    let h := add_0x_prefix s
    match int_of_hex s with
    | some n => .ok (n, h)
    | none => .error ("invalid literal for int() with base 16: " ++ s)

/-- `GethDev.revert` (lines 447-466), translated literally - including the
self-comparison `block_number_int > block_number_int` of line 462, which is
how the source spells the future-block guard.  The result is the list of
RPC requests issued: empty on the early-return paths (the second of which
also logs "Unable to set head to future block."), and the
`debug_setHead` rewind otherwise. -/
def revert (st : DevState) (snapshot_id : SnapId) :
    Except String (List (String × String)) :=
  match decode_snapshot_id snapshot_id with
  | .error e => .error e
  | .ok (block_number_int, block_number_hex_str) =>
    let current_block := st.latest_number
    -- Python `block_number_int == current_block`; `int == None` is `False`.
    let at_current : Bool :=
      match current_block with
      | some c => block_number_int == c
      | none => false
    if at_current then
      .ok []
    else if block_number_int > block_number_int then
      .ok []
    else
      .ok [("debug_setHead", block_number_hex_str)]

/-! ## Streaming RPC reader (`BaseGethProvider._stream_request`, lines 377-389)

The loop reads the response in chunks; each chunk is sent into the external
`ijson` coroutine, which appends every newly completed record of the target
array path to its `sendable_list` buffer; the loop then yields the buffer's
contents to the consumer and evicts them (`del results[:]`).  The parser is
external, so it is modelled at its interface: an incremental parser is a
state machine consuming the response one byte at a time, emitting each
completed record as soon as the byte completing it arrives (`ijson`'s
contract for `items_coro`).  Bytes are `Nat`s, records an arbitrary type. -/

structure ByteParser (σ ρ : Type) where
  init : σ
  step : σ → Nat → σ × List ρ

/-- Feed one byte into the parser, appending the records it completes. -/
def feedByte (p : ByteParser σ ρ) (acc : σ × List ρ) (b : Nat) : σ × List ρ :=
  let r := p.step acc.1 b
  (r.1, acc.2 ++ r.2)

/-- `coroutine.send(chunk)`: run the parser across one chunk, returning its
new state and the records completed inside the chunk, in order. -/
def sendChunk (p : ByteParser σ ρ) (s : σ) (chunk : List Nat) : σ × List ρ :=
  chunk.foldl (feedByte p) (s, [])

/-- The loop state of `_stream_request`: the parser state, the
`sendable_list` buffer (`results`), and everything yielded so far. -/
structure StreamState (σ ρ : Type) where
  ps : σ
  results : List ρ
  yielded : List ρ

/-- One iteration of the `for chunk in resp.iter_content(...)` loop
(lines 385-388): `coroutine.send(chunk)`, `yield from results`,
`del results[:]`. -/
def stream_chunk (p : ByteParser σ ρ) (st : StreamState σ ρ) (chunk : List Nat) :
    StreamState σ ρ :=
  let r := sendChunk p st.ps chunk
  ⟨r.1, [], st.yielded ++ (st.results ++ r.2)⟩

/-- `_stream_request` run to completion on a response delivered as the given
chunks. -/
def stream_request (p : ByteParser σ ρ) (chunks : List (List Nat)) :
    StreamState σ ρ :=
  chunks.foldl (stream_chunk p) ⟨p.init, [], []⟩

/-! ## Concrete inputs used by witnesses and counterexamples -/

/-- A node answering both trace endpoints, with distinguishable payloads. -/
def erigonNode : RpcNode :=
  ⟨fun _ => .ok [1, 2], fun _ => .ok 7⟩

/-- A node whose parity-style endpoint reports the unsupported-method
phrase, while the call tracer answers. -/
def node404 : RpcNode :=
  ⟨fun _ => .error (.providerError
      "the method trace_transaction does not exist/is not available"),
   fun _ => .ok 5⟩

/-- A 40-hex-character sealer address. -/
def sampleSealer : String :=
  String.mk (List.replicate 40 'a')

/-- A concrete incremental parser: sums bytes and emits the sum as a record
at every byte 10. -/
def lineParser : ByteParser Nat Nat :=
  ⟨0, fun s b => if b = 10 then (0, [s]) else (s + b, [])⟩

/-! # Theorems -/

/-! ## Streaming-reader lemmas -/

theorem foldl_feedByte_init {σ ρ : Type} (p : ByteParser σ ρ) (bytes : List Nat) :
    ∀ init : σ × List ρ,
      bytes.foldl (feedByte p) init =
        ((sendChunk p init.1 bytes).1, init.2 ++ (sendChunk p init.1 bytes).2) := by
  induction bytes with
  | nil =>
    intro init
    simp [sendChunk]
  | cons b bs ih =>
    intro init
    simp only [sendChunk, List.foldl_cons, feedByte, List.nil_append]
    rw [ih, ih ((p.step init.1 b).1, (p.step init.1 b).2)]
    simp [List.append_assoc]

theorem sendChunk_append {σ ρ : Type} (p : ByteParser σ ρ) (s : σ)
    (a b : List Nat) :
    sendChunk p s (a ++ b) =
      ((sendChunk p (sendChunk p s a).1 b).1,
       (sendChunk p s a).2 ++ (sendChunk p (sendChunk p s a).1 b).2) := by
  show (a ++ b).foldl (feedByte p) (s, []) = _
  rw [List.foldl_append]
  rw [foldl_feedByte_init p b (a.foldl (feedByte p) (s, []))]
  rfl

theorem stream_foldl_flatten {σ ρ : Type} (p : ByteParser σ ρ)
    (chunks : List (List Nat)) :
    ∀ (s : σ) (ys : List ρ),
      chunks.foldl (stream_chunk p) ⟨s, [], ys⟩ =
        ⟨(sendChunk p s chunks.flatten).1, [],
         ys ++ (sendChunk p s chunks.flatten).2⟩ := by
  induction chunks with
  | nil =>
    intro s ys
    simp [sendChunk]
  | cons c cs ih =>
    intro s ys
    simp only [List.foldl_cons, List.flatten_cons, stream_chunk, List.nil_append]
    rw [ih]
    rw [sendChunk_append]
    simp [List.append_assoc]

/-! ## Claim C1 -/

/-- C1 (refuted, code bug): the claim says a snapshot id decoding to a block
number strictly greater than the current head is error-logged and skipped
without issuing `debug_setHead`.  The source's guard on line 462 compares
`block_number_int` with itself, so it never fires: with the head at block 3,
reverting to snapshot id 5 issues the `debug_setHead` rewind request, and
the log-and-skip branch is unreachable.  This theorem evaluates the
translated code at that failing input. -/
theorem C1_revert_future_block_issues_setHead :
    snapshot ⟨some 3⟩ = 3 ∧
    revert ⟨some 3⟩ (SnapId.int 5) = .ok [("debug_setHead", "0x5")] := by
  decide

/-! ## Claim C2 -/

/-- C2 (counterexample): for a client version containing "erigon",
`get_call_tree` does not skip the parity-style step - it requests
`trace_transaction` and builds the tree from the parity trace, not from the
call tracer (whose data, 7, the node would have answered with). -/
theorem C2_counterexample :
    strContains (lowerStr "erigon/v2.48.1/linux") "erigon" = true ∧
    (get_call_tree erigonNode "erigon/v2.48.1/linux" "0xabc").2 =
      ["trace_transaction"] ∧
    (get_call_tree erigonNode "erigon/v2.48.1/linux" "0xabc").1 =
      .ok ⟨.parityTrace [1, 2], some "0xabc"⟩ ∧
    (get_call_tree erigonNode "erigon/v2.48.1/linux" "0xabc").1 ≠
      .ok ⟨.gethCallTrace 7, some "0xabc"⟩ := by
  decide

/-- C2 (amended): for every connection whose reported client version
contains "erigon" (case-insensitive), `get_call_tree` goes straight to the
parity-style trace (`trace_transaction`), bypassing the try/except fallback
to the native call tracer entirely. -/
theorem C2_erigon_uses_parity_directly (node : RpcNode) (v txn : String)
    (h : strContains (lowerStr v) "erigon" = true) :
    get_call_tree node v txn = get_parity_call_tree node txn := by
  simp [get_call_tree, h]

/-- Witness for `C2_erigon_uses_parity_directly`. -/
theorem C2_erigon_witness :
    get_call_tree erigonNode "erigon/v2.48.1" "0xdef" =
      get_parity_call_tree erigonNode "0xdef" :=
  C2_erigon_uses_parity_directly erigonNode "erigon/v2.48.1" "0xdef" (by decide)

/-! ## Claim C3 -/

theorem zeroPad_length (n : Nat) : (zeroPad n).length = n := by
  simp [zeroPad, String.length]

theorem sampleSealer_length : sampleSealer.length = 40 := by
  simp [sampleSealer, String.length]

/-- C3 (counterexample): the claim calls `extraData` a 66-byte hex layout,
i.e. a string of length `2 + 2 * 66 = 134`; for a 40-hex-character sealer
the code produces `2 + 64 + 40 + 130 = 236` characters (117 bytes). -/
theorem C3_counterexample :
    (make_genesis sampleSealer 1337).extraData.length = 236 ∧
    (make_genesis sampleSealer 1337).extraData.length ≠ 134 := by
  have h0 : ("0x" : String).length = 2 := rfl
  have hl : (make_genesis sampleSealer 1337).extraData.length = 236 := by
    simp [make_genesis, String.length_append, zeroPad_length,
      sampleSealer_length, h0]
  exact ⟨hl, by rw [hl]; decide⟩

/-- C3 (amended): the genesis `extraData` field is the 117-byte hex layout -
32 zero bytes, then the 20-byte sealer address, then 65 zero bytes (so 234
hex characters after the `0x` prefix); exactly one sealer address is
embedded, and it equals the account set as the node's block-production
etherbase. -/
theorem C3_extraData_layout (sealer : String) (h : sealer.length = 40) :
    (make_genesis sealer 1337).extraData =
      "0x" ++ zeroPad 64 ++ sealer ++ zeroPad 130 ∧
    (make_genesis sealer 1337).extraData.length = 236 ∧
    (make_genesis sealer 1337).miner_etherbase = sealer := by
  refine ⟨rfl, ?_, rfl⟩
  have h0 : ("0x" : String).length = 2 := rfl
  simp [make_genesis, String.length_append, zeroPad_length, h, h0]

/-- Witness for `C3_extraData_layout`. -/
theorem C3_witness :
    (make_genesis sampleSealer 1337).extraData =
      "0x" ++ zeroPad 64 ++ sampleSealer ++ zeroPad 130 ∧
    (make_genesis sampleSealer 1337).extraData.length = 236 ∧
    (make_genesis sampleSealer 1337).miner_etherbase = sampleSealer :=
  C3_extraData_layout sampleSealer sampleSealer_length

/-! ## Claim C4 -/

/-- C4 (confirmed): outside the erigon shortcut, when `trace_transaction`
fails with a `ProviderError` whose message contains
"does not exist/is not available", `_make_request` re-raises it as
`APINotImplementedError`, and `get_call_tree` falls through to the native
call tracer and returns a non-null tree built from its data. -/
theorem C4_unsupported_method_fallback (node : RpcNode) (v txn msg : String)
    (d : Nat)
    (hv : strContains (lowerStr v) "erigon" = false)
    (hp : node.trace_transaction txn = .error (.providerError msg))
    (hmsg : strContains msg "does not exist/is not available" = true)
    (hc : node.call_tracer txn = .ok d) :
    make_request "trace_transaction" (node.trace_transaction txn) =
      .error (.apiNotImplementedError (not_implemented_msg "trace_transaction")) ∧
    get_call_tree node v txn =
      (.ok ⟨.gethCallTrace d, some txn⟩,
       ["trace_transaction", "debug_traceTransaction"]) := by
  have h1 : make_request "trace_transaction" (node.trace_transaction txn) =
      .error (.apiNotImplementedError (not_implemented_msg "trace_transaction")) := by
    rw [hp]
    simp [make_request, hmsg]
  have hpar : get_parity_call_tree node txn =
      (.error (.apiNotImplementedError (not_implemented_msg "trace_transaction")),
       ["trace_transaction"]) := by
    simp only [get_parity_call_tree, h1]
  have hgeth : get_geth_call_tree node txn =
      (.ok ⟨.gethCallTrace d, some txn⟩, ["debug_traceTransaction"]) := by
    simp [get_geth_call_tree, hc, make_request, create_call_tree_node,
      get_calltree_from_geth_call_trace]
  refine ⟨h1, ?_⟩
  simp [get_call_tree, hv, hpar, hgeth, caught_by_fallback]

/-- Witness for `C4_unsupported_method_fallback`. -/
theorem C4_witness :
    make_request "trace_transaction" (node404.trace_transaction "0x1") =
      .error (.apiNotImplementedError (not_implemented_msg "trace_transaction")) ∧
    get_call_tree node404 "Geth/v1.10.26-stable" "0x1" =
      (.ok ⟨.gethCallTrace 5, some "0x1"⟩,
       ["trace_transaction", "debug_traceTransaction"]) :=
  C4_unsupported_method_fallback node404 "Geth/v1.10.26-stable" "0x1"
    "the method trace_transaction does not exist/is not available" 5
    (by decide) rfl (by decide) rfl

/-! ## Claim C5 -/

/-- C5 (confirmed): feeding the same response body to `_stream_request`
under any two chunkings yields the identical record sequence, and the
parser's output buffer (`results`) is evicted at the end of every loop
iteration, i.e. after its records are yielded. -/
theorem C5_chunk_boundary_independence {σ ρ : Type} (p : ByteParser σ ρ)
    (chunks1 chunks2 : List (List Nat))
    (h : chunks1.flatten = chunks2.flatten) :
    (stream_request p chunks1).yielded = (stream_request p chunks2).yielded ∧
    ∀ (st : StreamState σ ρ) (chunk : List Nat),
      (stream_chunk p st chunk).results = [] := by
  constructor
  · simp only [stream_request, stream_foldl_flatten, h]
  · intro st chunk
    rfl

/-- Witness for `C5_chunk_boundary_independence`. -/
theorem C5_witness :
    ([[1, 2], [10, 3], [10]] : List (List Nat)).flatten =
      ([[1], [2, 10, 3, 10]] : List (List Nat)).flatten ∧
    (stream_request lineParser [[1, 2], [10, 3], [10]]).yielded =
      (stream_request lineParser [[1], [2, 10, 3, 10]]).yielded ∧
    (stream_chunk lineParser ⟨0, [], []⟩ [1, 2]).results = [] :=
  ⟨by decide,
   (C5_chunk_boundary_independence lineParser [[1, 2], [10, 3], [10]]
      [[1], [2, 10, 3, 10]] (by decide)).1,
   (C5_chunk_boundary_independence lineParser [[1, 2], [10, 3], [10]]
      [[1], [2, 10, 3, 10]] (by decide)).2 ⟨0, [], []⟩ [1, 2]⟩

/-! ## Claim C6 -/

/-- C6 (counterexample): the claim quantifies over every client version
string, but the source checks "geth" before "erigon", so a version
containing both keeps the default tunables even though it contains
"erigon". -/
theorem C6_counterexample :
    strContains (lowerStr "erigongeth/v1") "erigon" = true ∧
    complete_connect_classify "erigongeth/v1" default_concurrency
      default_block_page_size = ⟨16, 5000, false⟩ ∧
    (complete_connect_classify "erigongeth/v1" default_concurrency
      default_block_page_size).concurrency ≠ 8 := by
  decide

/-- C6 (amended): classification checks "geth", "erigon", "nethermind" in
that order against the lower-cased version and applies the first match:
"erigon" (without "geth") sets concurrency 8 / page size 40000;
"nethermind" (without "geth"/"erigon") sets 32 / 50000; a version matching
none of the three keeps the defaults (16, 5000) and produces a warning,
never an error. -/
theorem C6_classification (v : String) :
    (strContains (lowerStr v) "geth" = false →
      strContains (lowerStr v) "erigon" = true →
      complete_connect_classify v default_concurrency default_block_page_size =
        ⟨8, 40000, false⟩) ∧
    (strContains (lowerStr v) "geth" = false →
      strContains (lowerStr v) "erigon" = false →
      strContains (lowerStr v) "nethermind" = true →
      complete_connect_classify v default_concurrency default_block_page_size =
        ⟨32, 50000, false⟩) ∧
    (strContains (lowerStr v) "geth" = false →
      strContains (lowerStr v) "erigon" = false →
      strContains (lowerStr v) "nethermind" = false →
      complete_connect_classify v default_concurrency default_block_page_size =
        ⟨default_concurrency, default_block_page_size, true⟩) := by
  refine ⟨?_, ?_, ?_⟩ <;>
    intros <;>
    simp_all [complete_connect_classify]

/-- Witness for `C6_classification`. -/
theorem C6_witness :
    complete_connect_classify "Erigon/v2.48.1" default_concurrency
      default_block_page_size = ⟨8, 40000, false⟩ ∧
    complete_connect_classify "Nethermind/v1.14.7" default_concurrency
      default_block_page_size = ⟨32, 50000, false⟩ ∧
    complete_connect_classify "Besu/v23.4.0" default_concurrency
      default_block_page_size = ⟨default_concurrency, default_block_page_size, true⟩ :=
  ⟨(C6_classification "Erigon/v2.48.1").1 (by decide) (by decide),
   (C6_classification "Nethermind/v1.14.7").2.1 (by decide) (by decide) (by decide),
   (C6_classification "Besu/v23.4.0").2.2 (by decide) (by decide) (by decide)⟩

/-! ## Claim C7 -/

/-- C7 (confirmed): `GethDevProcess.from_uri` refuses every host other than
the two accepted loopback names with a `ConnectionError` naming the host,
and the refusal happens before the constructor runs, so no data directory
is created, no genesis is written, and no process can be spawned. -/
theorem C7_nonlocal_host_refused (host : Option String) (geth_installed : Bool)
    (h1 : host ≠ some "localhost") (h2 : host ≠ some "127.0.0.1") :
    from_uri host geth_installed =
      .error ("Unable to start Geth on non-local host " ++ hostRepr host ++ ".") ∧
    ∀ acts : List DevAction, from_uri host geth_installed ≠ .ok acts := by
  have hcond : ¬(host = some "localhost" ∨ host = some "127.0.0.1") := by
    rintro (h | h)
    · exact h1 h
    · exact h2 h
  refine ⟨?_, ?_⟩
  · simp [from_uri, hcond]
  · intro acts
    simp [from_uri, hcond]

/-- Witness for `C7_nonlocal_host_refused`. -/
theorem C7_witness :
    from_uri (some "example.com") true =
      .error ("Unable to start Geth on non-local host " ++
        hostRepr (some "example.com") ++ ".") ∧
    ∀ acts : List DevAction, from_uri (some "example.com") true ≠ .ok acts :=
  C7_nonlocal_host_refused (some "example.com") true (by decide) (by decide)

/-! ## Claim C8 -/

/-- C8 (counterexample): connect to an erigon node (concurrency becomes 8),
disconnect, connect to a geth node.  The tunables derived from the new
node's version would be the defaults (a fresh connection to the same geth
node yields concurrency 16), yet the observed concurrency is still 8 -
inherited from the previous connection. -/
theorem C8_counterexample :
    (geth_connect initialState "erigon/v2.48.1").concurrency = 8 ∧
    (geth_connect (provider_disconnect (geth_connect initialState "erigon/v2.48.1"))
        "Geth/v1.10.26-stable").concurrency = 8 ∧
    (geth_connect (provider_disconnect (geth_connect initialState "erigon/v2.48.1"))
        "Geth/v1.10.26-stable").concurrency ≠ default_concurrency ∧
    (geth_connect initialState "Geth/v1.10.26-stable").concurrency =
      default_concurrency := by
  decide

/-- C8 (amended): the cached client version is cleared by both `_set_web3`
(on any state, however stale its cache) and `disconnect`, and recomputed
from the new node on every fresh connection - it is never inherited.  The
concurrency and page-size tunables, however, are not reset on disconnect:
when the new node's version matches "geth", or matches none of the known
names ("geth", "erigon", "nethermind"), they retain whatever values the
previous connection left behind. -/
theorem C8_version_recomputed_tunables_leak (st : ProviderState) (v : String) :
    (provider_disconnect st).client_version = none ∧
    (set_web3 st).client_version = none ∧
    (geth_connect (provider_disconnect st) v).client_version = some v ∧
    ((strContains (lowerStr v) "geth" = true ∨
      (strContains (lowerStr v) "geth" = false ∧
       strContains (lowerStr v) "erigon" = false ∧
       strContains (lowerStr v) "nethermind" = false)) →
      (geth_connect (provider_disconnect st) v).concurrency = st.concurrency ∧
      (geth_connect (provider_disconnect st) v).block_page_size =
        st.block_page_size) := by
  refine ⟨rfl, rfl, rfl, ?_⟩
  rintro (h | ⟨h1, h2, h3⟩)
  · simp [geth_connect, complete_connect, set_web3, provider_disconnect,
      complete_connect_classify, h]
  · simp [geth_connect, complete_connect, set_web3, provider_disconnect,
      complete_connect_classify, h1, h2, h3]

/-- Witness for `C8_version_recomputed_tunables_leak`: after an erigon
connection, reconnecting to a geth node and to an unknown-name node both
retain the erigon-era tunables. -/
theorem C8_witness :
    (provider_disconnect (geth_connect initialState "erigon/v2.48.1")).client_version =
      none ∧
    (set_web3 (geth_connect initialState "erigon/v2.48.1")).client_version = none ∧
    (geth_connect (provider_disconnect (geth_connect initialState "erigon/v2.48.1"))
        "Geth/v1.10.26-stable").client_version = some "Geth/v1.10.26-stable" ∧
    (geth_connect (provider_disconnect (geth_connect initialState "erigon/v2.48.1"))
        "Geth/v1.10.26-stable").concurrency =
      (geth_connect initialState "erigon/v2.48.1").concurrency ∧
    (geth_connect (provider_disconnect (geth_connect initialState "erigon/v2.48.1"))
        "Geth/v1.10.26-stable").block_page_size =
      (geth_connect initialState "erigon/v2.48.1").block_page_size ∧
    (geth_connect (provider_disconnect (geth_connect initialState "erigon/v2.48.1"))
        "Besu/v23.4.0").concurrency =
      (geth_connect initialState "erigon/v2.48.1").concurrency ∧
    (geth_connect (provider_disconnect (geth_connect initialState "erigon/v2.48.1"))
        "Besu/v23.4.0").block_page_size =
      (geth_connect initialState "erigon/v2.48.1").block_page_size := by
  have hg := C8_version_recomputed_tunables_leak
    (geth_connect initialState "erigon/v2.48.1") "Geth/v1.10.26-stable"
  have hb := C8_version_recomputed_tunables_leak
    (geth_connect initialState "erigon/v2.48.1") "Besu/v23.4.0"
  exact ⟨hg.1, hg.2.1, hg.2.2.1,
    (hg.2.2.2 (Or.inl (by decide))).1,
    (hg.2.2.2 (Or.inl (by decide))).2,
    (hb.2.2.2 (Or.inr ⟨by decide, by decide, by decide⟩)).1,
    (hb.2.2.2 (Or.inr ⟨by decide, by decide, by decide⟩)).2⟩

/-! ## Claim C9 -/

/-- C9 (confirmed): when the chain has a head block number, `revert`
applied to the id just captured by `snapshot` returns on the
already-at-this-block path: it issues no RPC request at all - in particular
no `debug_setHead` - so the chain head is untouched. -/
theorem C9_revert_of_snapshot_is_noop (st : DevState) (n : Nat)
    (h : st.latest_number = some n) :
    revert st (SnapId.int (snapshot st)) = .ok [] := by
  simp [revert, snapshot, decode_snapshot_id, h]

/-- Witness for `C9_revert_of_snapshot_is_noop`. -/
theorem C9_witness :
    revert ⟨some 7⟩ (SnapId.int (snapshot ⟨some 7⟩)) = .ok [] :=
  C9_revert_of_snapshot_is_noop ⟨some 7⟩ 7 rfl

/-! ## Claim C10 -/

/-- C10 (confirmed): `GethDev.get_call_tree` delegates to
`_get_geth_call_tree` unconditionally; whatever the node answers, the only
endpoint requested is `debug_traceTransaction` (the native call tracer) -
`trace_transaction` is never requested - and on success the tree is built
from the call-tracer data. -/
theorem C10_dev_uses_call_tracer_only (node : RpcNode) (txn : String) :
    (gethDev_get_call_tree node txn).2 = ["debug_traceTransaction"] ∧
    "trace_transaction" ∉ (gethDev_get_call_tree node txn).2 ∧
    ∀ d : Nat, node.call_tracer txn = .ok d →
      (gethDev_get_call_tree node txn).1 = .ok ⟨.gethCallTrace d, some txn⟩ := by
  have h2 : (gethDev_get_call_tree node txn).2 = ["debug_traceTransaction"] := by
    simp only [gethDev_get_call_tree, get_geth_call_tree]
    cases make_request "debug_traceTransaction" (node.call_tracer txn) <;> simp
  refine ⟨h2, ?_, ?_⟩
  · rw [h2]
    decide
  · intro d hd
    simp [gethDev_get_call_tree, get_geth_call_tree, hd, make_request,
      create_call_tree_node, get_calltree_from_geth_call_trace]

/-- Witness for `C10_dev_uses_call_tracer_only`. -/
theorem C10_witness :
    (gethDev_get_call_tree node404 "0x2").2 = ["debug_traceTransaction"] ∧
    "trace_transaction" ∉ (gethDev_get_call_tree node404 "0x2").2 ∧
    (gethDev_get_call_tree node404 "0x2").1 = .ok ⟨.gethCallTrace 5, some "0x2"⟩ :=
  ⟨(C10_dev_uses_call_tracer_only node404 "0x2").1,
   (C10_dev_uses_call_tracer_only node404 "0x2").2.1,
   (C10_dev_uses_call_tracer_only node404 "0x2").2.2 5 rfl⟩

end ApeGeth
